import Mathlib

/-!
Verification of the schedule-scraping and normalization pipeline of
`src/streamlit.py` (`get_starter_info`, `scrape_team_schedule`,
`format_data_for_gemini_prompt`).

Strings are modelled as lists of characters (`Str`).  The Python string
operations used by the source (`strip`, `split`, `replace`, `capitalize`,
`isupper`, membership tests) are given executable models below; character
classes (`isalnum`, `isupper`, whitespace and the regex classes `\d`,
`[A-Z]`, `\s`) are modelled over ASCII, which covers every string the
program manipulates.  The three regular expressions of the source are
compiled by hand into deterministic matchers; each is annotated with the
regex it implements and the backtracking argument for why the
deterministic version is equivalent.
-/

namespace NGS

/-- Model of a Python `str`: a list of characters. -/
abbrev Str := List Char

/-- Coerce a Lean string literal into the model. -/
def str (s : String) : Str := s.data

/-- ASCII model of Python's `\s` / `str.split()` whitespace class. -/
def isPySpace (c : Char) : Bool :=
  c == ' ' || c == '\t' || c == '\n' || c == '\r' || c == '\x0b' || c == '\x0c'

/-- Python `s.lstrip()` (whitespace). -/
def pyTrimLeft (s : Str) : Str := s.dropWhile isPySpace

/-- Python trailing-whitespace removal (the right half of `s.strip()`). -/
def pyTrimRight (s : Str) : Str := (s.reverse.dropWhile isPySpace).reverse

/-- Python `s.strip()` with no argument: whitespace off both ends. -/
def pyStrip (s : Str) : Str := pyTrimLeft (pyTrimRight s)

/-- Python `s.strip(ch)` for a single character argument. -/
def stripChar (ch : Char) (s : Str) : Str :=
  ((s.dropWhile (· == ch)).reverse.dropWhile (· == ch)).reverse

/-- Does `pat` occur at the very start of `s`?  (Python `s.startswith(pat)`.) -/
def strStarts : Str → Str → Bool
  | [], _ => true
  | _ :: _, [] => false
  | p :: ps, c :: cs => p == c && strStarts ps cs

/-- Does `pat` occur at the very end of `s`?  (Python `s.endswith(pat)`.) -/
def strEnds (pat s : Str) : Bool := strStarts pat.reverse s.reverse

/-- Python `s.split(sep)` for a one-character separator: splits at every
occurrence, keeping empty segments; `"".split(sep) == [""]`. -/
def pySplitOn (sep : Char) : Str → List Str
  | [] => [[]]
  | c :: r =>
    if c == sep then [] :: pySplitOn sep r
    else
      match pySplitOn sep r with
      | [] => [[c]]
      | h :: t => (c :: h) :: t

/-- Splitter at every whitespace character, keeping empty segments. -/
def splitWsAux : Str → List Str
  | [] => [[]]
  | c :: r =>
    if isPySpace c then [] :: splitWsAux r
    else
      match splitWsAux r with
      | [] => [[c]]
      | h :: t => (c :: h) :: t

/-- Python `s.split()` with no argument: whitespace runs separate tokens,
no empty tokens are produced. -/
def pySplitWs (s : Str) : List Str := (splitWsAux s).filter (fun t => !t.isEmpty)

/-- Python `" ".join(parts)`. -/
def joinSp (parts : List Str) : Str := List.intercalate (str " ") parts

/-- The source's idiom `" ".join(x.split())`: collapse whitespace runs. -/
def normWsJoin (s : Str) : Str := joinSp (pySplitWs s)

/-- Python `s.lower()` (ASCII model). -/
def lowerStr (s : Str) : Str := s.map Char.toLower

/-- Python `s.upper()` (ASCII model). -/
def upperStr (s : Str) : Str := s.map Char.toUpper

/-- Python `s.capitalize()`: first character uppercased, the rest lowercased. -/
def pyCapitalize : Str → Str
  | [] => []
  | c :: r => Char.toUpper c :: r.map Char.toLower

/-- Python `s.isupper()`: at least one cased character and no lowercase
cased character (cased = ASCII letter in this model). -/
def pyIsUpper (s : Str) : Bool :=
  s.any (fun c => c.isAlpha) && s.all (fun c => !c.isAlpha || c.isUpper)

/-- Fuel-driven worker for `replaceAll`; the fuel is the length of the
subject string, and at least one character is consumed per unit of fuel,
so the fuel never runs out on the real call. -/
def replaceAllAux (pat rep : Str) : Nat → Str → Str
  | _, [] => []
  | 0, s => s
  | fuel + 1, c :: rest =>
    if strStarts pat (c :: rest) && !pat.isEmpty then
      rep ++ replaceAllAux pat rep fuel (List.drop (pat.length - 1) rest)
    else
      c :: replaceAllAux pat rep fuel rest

/-- Python `s.replace(pat, rep)`: replace every occurrence, scanning left
to right, non-overlapping.  (The empty-pattern case is never used by the
source and is modelled as the identity.) -/
def replaceAll (pat rep s : Str) : Str := replaceAllAux pat rep s.length s

/-!  Regex matchers.

`matchTimeAt` implements `\d{1,2}:\d{2}` anchored at the start of the
subject.  The greedy two-digit alternative is tried first; when two digits
are present the one-digit alternative cannot fire (its colon position holds
a digit), so no backtracking across the hour width is ever needed and the
matcher is deterministic.  It returns the matched text and the rest. -/

def matchTimeAt : Str → Option (Str × Str)
  | d1 :: d2 :: c :: d3 :: d4 :: rest =>
    if d1.isDigit && d2.isDigit && c == ':' && d3.isDigit && d4.isDigit then
      some ([d1, d2, ':', d3, d4], rest)
    else if d1.isDigit && d2 == ':' && c.isDigit && d3.isDigit then
      some ([d1, ':', c, d3], d4 :: rest)
    else none
  | [d1, d2, c, d3] =>
    if d1.isDigit && d2 == ':' && c.isDigit && d3.isDigit then
      some ([d1, ':', c, d3], [])
    else none
  | _ => none

/-- Tail of the first time regex of the source,
`\s*([apAP])\.?[mM]\.?`, applied after the time token: skip whitespace,
read the a/p marker, then an optional dot, then a mandatory `m`/`M` (the
trailing optional dot needs no lookahead).  If the optional dot is consumed
and `m` is absent, the undotted alternative would have to match `m` against
the dot itself, so the greedy treatment of `\.?` is deterministic.
Returns the marker. -/
def r1Tail (rest : Str) : Option Char :=
  match rest.dropWhile isPySpace with
  | m :: rest3 =>
    if m == 'a' || m == 'p' || m == 'A' || m == 'P' then
      match rest3 with
      | '.' :: m2 :: _ => if m2 == 'm' || m2 == 'M' then some m else none
      | m2 :: _ => if m2 == 'm' || m2 == 'M' then some m else none
      | [] => none
    else none
  | [] => none

/-- Anchored matcher for the source regex
`(\d{1,2}:\d{2})\s*([apAP])\.?[mM]\.?` (group 1, group 2). -/
def r1MatchAt (cs : Str) : Option (Str × Char) :=
  match matchTimeAt cs with
  | some (t, rest) => (r1Tail rest).map (fun m => (t, m))
  | none => none

/-- Anchored matcher for the fallback source regex
`(\d{1,2}:\d{2})([apAP])`: the marker must be adjacent to the time. -/
def r2MatchAt (cs : Str) : Option (Str × Char) :=
  match matchTimeAt cs with
  | some (t, m :: _) =>
    if m == 'a' || m == 'p' || m == 'A' || m == 'P' then some (t, m) else none
  | _ => none

/-- `re.search` driver: try the anchored matcher at every position, left to
right (including the empty suffix, as `re.search` does). -/
def searchAux {α : Type} (f : Str → Option α) : Str → Option α
  | [] => f []
  | c :: r =>
    match f (c :: r) with
    | some x => some x
    | none => searchAux f r

/-- `re.search(r'(\d{1,2}:\d{2})\s*([apAP])\.?[mM]\.?', s)`. -/
def searchR1 (s : Str) : Option (Str × Char) := searchAux r1MatchAt s

/-- `re.search(r'(\d{1,2}:\d{2})([apAP])', s)`. -/
def searchR2 (s : Str) : Option (Str × Char) := searchAux r2MatchAt s

/-- After the `vs`/`vs.`/`@` alternative of the opponent regex: skip `\s*`,
then read `[A-Z]{2,3}` greedily (three capitals if available, else two).
Nothing follows the group in the pattern, so the greedy choice stands. -/
def oppAfterSign (rest2 : Str) : Option Str :=
  match rest2.dropWhile isPySpace with
  | u1 :: u2 :: u3 :: _ =>
    if u1.isUpper && u2.isUpper then
      some (if u3.isUpper then [u1, u2, u3] else [u1, u2])
    else none
  | [u1, u2] => if u1.isUpper && u2.isUpper then some [u1, u2] else none
  | _ => none

/-- Anchored matcher for the source regex `(?:vs\.?|@)\s*([A-Z]{2,3})`
(returning group 1).  After `vs`, the optional dot is taken greedily; if
the dotted branch fails, the undotted branch would have to match the dot
as whitespace or a capital letter, so greediness is deterministic. -/
def oppMatchAt : Str → Option Str
  | 'v' :: 's' :: rest =>
    oppAfterSign (match rest with | '.' :: r => r | _ => rest)
  | '@' :: rest => oppAfterSign rest
  | _ => none

/-- `re.search(r'(?:vs\.?|@)\s*([A-Z]{2,3})', s)`, group 1. -/
def oppSearch (s : Str) : Option Str := searchAux oppMatchAt s

/-!  Model of `datetime.strptime(s, "%b %d")` / `strftime("%B %d")` in the
C locale.  `%b` matches a three-letter month abbreviation case-
insensitively; the space in the format matches one or more whitespace
characters; `%d` matches `3[01]|[12]\d|0[1-9]|[1-9]` (alternatives in that
order); the whole string must be consumed; and the resulting calendar date
must exist in the default year 1900 (not a leap year). -/

def monthAbbrs : List Str :=
  [str "Jan", str "Feb", str "Mar", str "Apr", str "May", str "Jun",
   str "Jul", str "Aug", str "Sep", str "Oct", str "Nov", str "Dec"]

def fullMonths : List Str :=
  [str "January", str "February", str "March", str "April", str "May",
   str "June", str "July", str "August", str "September", str "October",
   str "November", str "December"]

def daysInMonth1900 : List Nat := [31, 28, 31, 30, 31, 30, 31, 31, 30, 31, 30, 31]

def findMonthAux (pre : Str) : Nat → List Str → Option Nat
  | _, [] => none
  | i, ab :: rest => if pre == lowerStr ab then some i else findMonthAux pre (i + 1) rest

/-- Match `%b` at the start of `cs` (case-insensitive 3-letter abbreviation);
returns the month number and the rest. -/
def parseMonthAt (cs : Str) : Option (Nat × Str) :=
  (findMonthAux (lowerStr (cs.take 3)) 1 monthAbbrs).map (fun m => (m, cs.drop 3))

def digitVal (c : Char) : Nat := c.toNat - '0'.toNat

/-- Match `%d` (`3[01]|[12]\d|0[1-9]|[1-9]`, alternatives in order) at the
start of the string; returns the day and the rest. -/
def parseDayAt : Str → Option (Nat × Str)
  | '3' :: '0' :: rest => some (30, rest)
  | '3' :: '1' :: rest => some (31, rest)
  | c :: d :: rest =>
    if (c == '1' || c == '2') && d.isDigit then
      some (10 * digitVal c + digitVal d, rest)
    else if c == '0' && d.isDigit && d != '0' then
      some (digitVal d, rest)
    else if c.isDigit && c != '0' then
      some (digitVal c, d :: rest)
    else none
  | [c] => if c.isDigit && c != '0' then some (digitVal c, []) else none
  | [] => none

/-- `datetime.strptime(s, "%b %d")`, reduced to the (month, day) pair it
determines; `none` models the `ValueError` on any parse failure. -/
def pyStrptimeBD (s : Str) : Option (Nat × Nat) :=
  match parseMonthAt s with
  | none => none
  | some (m, rest) =>
    if (rest.takeWhile isPySpace).isEmpty then none
    else
      match parseDayAt (rest.dropWhile isPySpace) with
      | none => none
      | some (d, rest2) =>
        if rest2.isEmpty && d ≤ daysInMonth1900.getD (m - 1) 0 then some (m, d)
        else none

/-- `dt.strftime("%B %d")`: full month name, space, zero-padded day. -/
def strftimeBD (m d : Nat) : Str :=
  fullMonths.getD (m - 1) [] ++ str " " ++
    (if d < 10 then '0' :: Nat.toDigits 10 d else Nat.toDigits 10 d)

/-!  Data model of the parsed markup, at the granularity the source
inspects it through BeautifulSoup. -/

/-- A `<td>` cell: its `<a>` descendants in document order, each carrying
its `href` attribute when present, and its text fragments in document
order.  `find('a')` is the head of `anchors`; `stripped_strings` is the
fragments stripped of whitespace with empties dropped. -/
structure Cell where
  anchors : List (Option Str)
  texts : List Str
deriving DecidableEq

/-- `cell.stripped_strings`. -/
def strippedStrings (c : Cell) : List Str :=
  (c.texts.map pyStrip).filter (fun t => !t.isEmpty)

/-- `cell.get_text(separator=" ", strip=True)`. -/
def cellText (c : Cell) : Str := joinSp (strippedStrings c)

/-- A `<tr>` row: its `<td>` cells (`find_all('td')`). -/
structure Row where
  cells : List Cell
deriving DecidableEq

/-- A `<tbody>`: its `<tr>` rows (`find('tr')` is the head). -/
structure TableBody where
  rows : List Row
deriving DecidableEq

/-- A `<table>`: its class tokens and its `<tbody>` sections
(`find('tbody')` is the head). -/
structure HTable where
  classes : List Str
  tbodies : List TableBody
deriving DecidableEq

/-- A parsed page: all `<table>` elements in document order. -/
structure Page where
  htables : List HTable
deriving DecidableEq

/-- `soup.find_all('table', class_='TableBase-table')`: the tables whose
class attribute contains the token `TableBase-table`, in document order. -/
def findTables (soup : Page) : List HTable :=
  soup.htables.filter (fun t => t.classes.contains (str "TableBase-table"))

/-- Outcome of `requests.get` + `raise_for_status`: either some caught
`RequestException` (network error, timeout, or HTTP error status), or the
fetched page as parsed by BeautifulSoup. -/
inductive FetchResult where
  | err : FetchResult
  | ok : Page → FetchResult
deriving DecidableEq

/-- The record returned by `scrape_team_schedule` (its Python dict, with
the same keys). -/
structure RawGameRow where
  Date : Str
  OPP_raw : Str
  Time_TV_raw : Str
  Venue : Str
  Home_starter : Str
  Away_starter : Str
  Scraped_team_full_name : Str
deriving DecidableEq

/-!  The three source functions. -/

/-- `get_starter_info(cell_td)` from `src/streamlit.py`:
prefer a name rebuilt from the first link's URL slug (last `/`-segment,
hyphenated, alphanumeric-and-hyphen only: split on hyphens, capitalize
each part, join with spaces), append the first `(...)` text fragment, and
strip; otherwise fall back to the joined visible text, or `"N/A"` if that
is empty. -/
def get_starter_info (cell_td : Cell) : Str :=
  let full_name_from_url : Option Str :=
    match cell_td.anchors.head? with
    | some (some player_url_path) =>
      let path_segments := pySplitOn '/' (stripChar '/' player_url_path)
      if path_segments.length > 0 then
        let name_slug := path_segments.getLastD []
        if name_slug.contains '-' && name_slug.all (fun c => c.isAlphanum || c == '-') then
          some (joinSp ((pySplitOn '-' name_slug).map pyCapitalize))
        else none
      else none
    | _ => none
  let cell_all_texts := strippedStrings cell_td
  let stats_text : Str :=
    (cell_all_texts.find? (fun t => strStarts (str "(") t && strEnds (str ")") t)).getD []
  match full_name_from_url with
  | some n => pyStrip (n ++ str " " ++ stats_text)
  | none =>
    let original_text := joinSp cell_all_texts
    if original_text.isEmpty then str "N/A" else original_text

/-- An absent cell, as padded in by the source:
`BeautifulSoup("<td></td>", "html.parser").td`. -/
def emptyCell : Cell := ⟨[], []⟩

/-- The cell-extraction block of `scrape_team_schedule` (lines 130-153):
pad the row to six cells with empty `<td>` elements, then read the six
fields.  Padding a list and indexing it is realized as `List.getD` with
the empty cell as the out-of-range default, which is the identical
function for indices 0..5. -/
def extractRow (first_data_row : Row) (team_display_name : Str) : RawGameRow :=
  let cells := first_data_row.cells
  { Date := normWsJoin (cellText (cells.getD 0 emptyCell))
    OPP_raw := normWsJoin (cellText (cells.getD 1 emptyCell))
    Time_TV_raw := normWsJoin (cellText (cells.getD 2 emptyCell))
    Venue := normWsJoin (cellText (cells.getD 3 emptyCell))
    Home_starter := get_starter_info (cells.getD 4 emptyCell)
    Away_starter := get_starter_info (cells.getD 5 emptyCell)
    Scraped_team_full_name := team_display_name }

/-- `scrape_team_schedule(team_url, team_display_name)` from
`src/streamlit.py`, with the network call abstracted into its outcome.
Every failure path (`st.error` + `return None` in the source) is `none`:
fetch error, no `TableBase-table` table, fewer than two such tables,
no `<tbody>` in the second one, or no `<tr>` in that body. -/
def scrape_team_schedule (fetch : FetchResult) (team_display_name : Str) :
    Option RawGameRow :=
  match fetch with
  | .err => none
  | .ok soup =>
    match findTables soup with
    | [] => none
    | [_] => none
    | _ :: schedule_table :: _ =>
      match schedule_table.tbodies.head? with
      | none => none
      | some tbody =>
        match tbody.rows.head? with
        | none => none
        | some first_data_row => some (extractRow first_data_row team_display_name)

/-!  The static team directory (`MLB_TEAMS`, `MLB_TEAMS_BY_ABBR`). -/

/-- `MLB_TEAMS` from `src/streamlit.py`: display name mapped to
(abbreviation, URL slug, mascot), as a list of dict items in insertion
order. -/
def MLB_TEAMS : List (Str × Str × Str × Str) :=
  [ (str "Arizona Diamondbacks", str "ARI", str "arizona-diamondbacks", str "Diamondbacks")
  , (str "Atlanta Braves", str "ATL", str "atlanta-braves", str "Braves")
  , (str "Baltimore Orioles", str "BAL", str "baltimore-orioles", str "Orioles")
  , (str "Boston Red Sox", str "BOS", str "boston-red-sox", str "Red Sox")
  , (str "Chicago Cubs", str "CHC", str "chicago-cubs", str "Cubs")
  , (str "Chicago White Sox", str "CHW", str "chicago-white-sox", str "White Sox")
  , (str "Cincinnati Reds", str "CIN", str "cincinnati-reds", str "Reds")
  , (str "Cleveland Guardians", str "CLE", str "cleveland-guardians", str "Guardians")
  , (str "Colorado Rockies", str "COL", str "colorado-rockies", str "Rockies")
  , (str "Detroit Tigers", str "DET", str "detroit-tigers", str "Tigers")
  , (str "Houston Astros", str "HOU", str "houston-astros", str "Astros")
  , (str "Kansas City Royals", str "KC", str "kansas-city-royals", str "Royals")
  , (str "Los Angeles Angels", str "LAA", str "los-angeles-angels", str "Angels")
  , (str "Los Angeles Dodgers", str "LAD", str "los-angeles-dodgers", str "Dodgers")
  , (str "Miami Marlins", str "MIA", str "miami-marlins", str "Marlins")
  , (str "Milwaukee Brewers", str "MIL", str "milwaukee-brewers", str "Brewers")
  , (str "Minnesota Twins", str "MIN", str "minnesota-twins", str "Twins")
  , (str "New York Mets", str "NYM", str "new-york-mets", str "Mets")
  , (str "New York Yankees", str "NYY", str "new-york-yankees", str "Yankees")
  , (str "Oakland Athletics", str "OAK", str "oakland-athletics", str "Athletics")
  , (str "Philadelphia Phillies", str "PHI", str "philadelphia-phillies", str "Phillies")
  , (str "Pittsburgh Pirates", str "PIT", str "pittsburgh-pirates", str "Pirates")
  , (str "San Diego Padres", str "SD", str "san-diego-padres", str "Padres")
  , (str "San Francisco Giants", str "SF", str "san-francisco-giants", str "Giants")
  , (str "Seattle Mariners", str "SEA", str "seattle-mariners", str "Mariners")
  , (str "St. Louis Cardinals", str "STL", str "st-louis-cardinals", str "Cardinals")
  , (str "Tampa Bay Rays", str "TB", str "tampa-bay-rays", str "Rays")
  , (str "Texas Rangers", str "TEX", str "texas-rangers", str "Rangers")
  , (str "Toronto Blue Jays", str "TOR", str "toronto-blue-jays", str "Blue Jays")
  , (str "Washington Nationals", str "WSH", str "washington-nationals", str "Nationals") ]

/-- `MLB_TEAMS_BY_ABBR`, the reverse lookup built from `MLB_TEAMS`:
abbreviation to (full name, mascot); `a in MLB_TEAMS_BY_ABBR` is
`(MLB_TEAMS_BY_ABBR a).isSome`.  Abbreviations are unique, so dict
construction order is immaterial and the first hit is the value. -/
def MLB_TEAMS_BY_ABBR (a : Str) : Option (Str × Str) :=
  (MLB_TEAMS.find? (fun t => t.2.1 == a)).map (fun t => (t.1, t.2.2.2))

/-!  `format_data_for_gemini_prompt`, split along the source's blocks. -/

/-- The result dict of `format_data_for_gemini_prompt`, with its keys as
fields. -/
structure Formatted where
  date : Str
  scraped_team_mascot : Str
  opponent_full_name : Str
  matchup_conjunction : Str
  time : Str
  tv : Str
  venue : Str
  scraped_team_starter : Str
  opponent_starter : Str
deriving DecidableEq

/-- The date block (lines 158-169): on a comma, take `split(',')[1]`
stripped, limit it to its first two whitespace tokens when it has more,
parse it with `strptime("%b %d")` and render with `strftime("%B %d")`;
any `ValueError` falls back to the raw date string. -/
def normDate (date_str : Str) : Str :=
  let date_part :=
    if date_str.contains ',' then
      let dp := pyStrip ((pySplitOn ',' date_str).getD 1 [])
      if (pySplitWs dp).length > 2 then joinSp ((pySplitWs dp).take 2) else dp
    else date_str
  match pyStrptimeBD date_part with
  | some (m, d) => strftimeBD m d
  | none => date_str

/-- The opponent block (lines 173-185): regex hit with a known
abbreviation resolves to the full name; a regex hit with an unknown
abbreviation leaves the raw string as initialized; with no regex hit, a
raw string that is itself an uppercase 2-3 character known abbreviation
resolves directly, and anything else has every `"vs. "` and `"@ "`
removed and is stripped. -/
def normOpp (opp_raw : Str) : Str :=
  match oppSearch opp_raw with
  | some opp_abbr =>
    match MLB_TEAMS_BY_ABBR opp_abbr with
    | some (full, _) => full
    | none => opp_raw
  | none =>
    if pyIsUpper opp_raw && (opp_raw.length == 2 || opp_raw.length == 3) then
      match MLB_TEAMS_BY_ABBR opp_raw with
      | some (full, _) => full
      | none => pyStrip (replaceAll (str "@ ") [] (replaceAll (str "vs. ") [] opp_raw))
    else pyStrip (replaceAll (str "@ ") [] (replaceAll (str "vs. ") [] opp_raw))

/-- The time block (lines 192-205): first regex, then the adjacent-marker
fallback regex; a hit renders `"H:MM a.m. ET"` / `"H:MM p.m. ET"` from the
lowercased marker.  On no hit the source either keeps the initial value
`"TBD"` or re-assigns `"TBD"` when the raw string contains `"TBD"`; both
branches produce `"TBD"`, so no hit is `"TBD"` unconditionally. -/
def normTime (time_tv_raw : Str) : Str :=
  match searchR1 time_tv_raw with
  | some (time_part, am_pm) => time_part ++ str " " ++ [am_pm.toLower] ++ str ".m. ET"
  | none =>
    match searchR2 time_tv_raw with
    | some (time_part, am_pm) => time_part ++ str " " ++ [am_pm.toLower] ++ str ".m. ET"
    | none => str "TBD"

/-- The token scan of the TV block: the first whitespace token that does
not start with a time pattern (`re.match(r'\d{1,2}:\d{2}', part)`) and is
not, lowercased, in the ignore set. -/
def firstTvToken : List Str → Str
  | [] => []
  | part :: rest =>
    if !(matchTimeAt part).isSome
        && !([str "et", str "pm", str "am", str "p", str "a", str "p.m.", str "a.m."].contains
              (lowerStr part)) then
      part
    else firstTvToken rest

/-- The TV block (lines 207-223): candidate = substring after the last
`/` stripped, else the whole raw string when time came out `"TBD"` but the
raw string is not literally `"TBD"`, else the first surviving whitespace
token; then the substitutions ATV, AMZN, MLBN are applied in dict order; an
empty candidate keeps the initial `"Not specified"`. -/
def normTv (time_tv_raw formatted_time : Str) : Str :=
  let potential_tv_str : Str :=
    if time_tv_raw.contains '/' then
      pyStrip ((pySplitOn '/' time_tv_raw).getLastD [])
    else if formatted_time == str "TBD" && time_tv_raw != str "TBD" then
      time_tv_raw
    else firstTvToken (pySplitWs time_tv_raw)
  if potential_tv_str.isEmpty then str "Not specified"
  else
    replaceAll (str "MLBN") (str "MLB Network")
      (replaceAll (str "AMZN") (str "Amazon")
        (replaceAll (str "ATV") (str "Apple TV") potential_tv_str))

/-- `format_data_for_gemini_prompt(game_data, selected_team_info)` from
`src/streamlit.py`; `selected_team_info` is the `(abbr, url_name, mascot)`
triple of the selected team. -/
def format_data_for_gemini_prompt (game_data : RawGameRow)
    (selected_team_info : Str × Str × Str) : Formatted :=
  let matchup_conjunction :=
    if game_data.OPP_raw.contains '@' then str "at" else str "vs."
  let formatted_time := normTime game_data.Time_TV_raw
  { date := normDate game_data.Date
    scraped_team_mascot := selected_team_info.2.2
    opponent_full_name := normOpp game_data.OPP_raw
    matchup_conjunction := matchup_conjunction
    time := formatted_time
    tv := normTv game_data.Time_TV_raw formatted_time
    venue :=
      if !(game_data.Venue == str "TBD" || game_data.Venue == str "N/A"
            || game_data.Venue == []) then
        game_data.Venue
      else str "Venue TBD"
    scraped_team_starter :=
      if matchup_conjunction == str "vs." then
        if !(game_data.Home_starter == str "TBD" || game_data.Home_starter == str "N/A"
              || game_data.Home_starter == []) then
          game_data.Home_starter
        else str "Starter TBD"
      else
        if !(game_data.Away_starter == str "TBD" || game_data.Away_starter == str "N/A"
              || game_data.Away_starter == []) then
          game_data.Away_starter
        else str "Starter TBD"
    opponent_starter :=
      if matchup_conjunction == str "vs." then
        if !(game_data.Away_starter == str "TBD" || game_data.Away_starter == str "N/A"
              || game_data.Away_starter == []) then
          game_data.Away_starter
        else str "Starter TBD"
      else
        if !(game_data.Home_starter == str "TBD" || game_data.Home_starter == str "N/A"
              || game_data.Home_starter == []) then
          game_data.Home_starter
        else str "Starter TBD" }

/-!  Definitions following the words of the specification, for comparison
with the source functions above.  Each is used only to state a claim, to
state its counterexample, or to state its amended form. -/

/-- The last slash-delimited segment of a link path after stripping
surrounding slashes (spec 4.2 step 1). -/
def lastSlugSegment (href : Str) : Str :=
  (pySplitOn '/' (stripChar '/' href)).getLastD []

/-- Spec 4.2 step 1's side condition: the segment is a hyphen-joined,
alphanumeric-and-hyphen-only token. -/
def slugIsName (slug : Str) : Bool :=
  slug.contains '-' && slug.all (fun c => c.isAlphanum || c == '-')

/-- Spec 4.2 step 1's name construction: split the slug on hyphens,
capitalize each part, join with spaces. -/
def slugToName (slug : Str) : Str :=
  joinSp ((pySplitOn '-' slug).map pyCapitalize)

/-- Spec 4.2 step 2: the first text fragment of the cell that starts with
an opening and ends with a closing parenthesis, or empty. -/
def firstParen (cell : Cell) : Str :=
  ((strippedStrings cell).find? (fun t => strStarts (str "(") t && strEnds (str ")") t)).getD []

/-- Claim C4's reading of the time pattern: an `H:MM` token followed
(after optional whitespace) by an `a`/`p` marker, the `.`/`m` tail being
entirely optional.  Anchored form. -/
def claimTimeMatchAt (cs : Str) : Option (Str × Char) :=
  match matchTimeAt cs with
  | some (t, rest) =>
    match rest.dropWhile isPySpace with
    | m :: _ =>
      if m == 'a' || m == 'p' || m == 'A' || m == 'P' then some (t, m) else none
    | [] => none
  | none => none

/-- Claim C4's reading of the time pattern, searched left to right. -/
def claimTimeSearch (s : Str) : Option (Str × Char) := searchAux claimTimeMatchAt s

/-- Everything after the first occurrence of `sep` (empty if none). -/
def dropThroughCh (sep : Char) : Str → Str
  | [] => []
  | c :: r => if c == sep then r else dropThroughCh sep r

/-- Everything before the first occurrence of `sep`. -/
def takeUntilCh (sep : Char) : Str → Str
  | [] => []
  | c :: r => if c == sep then [] else c :: takeUntilCh sep r

/-- Claim C5's stated algorithm: on a comma, the date candidate is the
entire substring after the FIRST comma (stripped, limited to two
whitespace tokens); parse failure passes the raw string through. -/
def claimDateAlg (s : Str) : Str :=
  let date_part :=
    if s.contains ',' then
      let dp := pyStrip (dropThroughCh ',' s)
      if (pySplitWs dp).length > 2 then joinSp ((pySplitWs dp).take 2) else dp
    else s
  match pyStrptimeBD date_part with
  | some (m, d) => strftimeBD m d
  | none => s

/-- Claim C5 as amended: the date candidate is the segment BETWEEN the
first and second commas (what `split(',')[1]` yields), stripped and
limited to two whitespace tokens; parse failure passes the raw string
through. -/
def amendedDateAlg (s : Str) : Str :=
  let date_part :=
    if s.contains ',' then
      let dp := pyStrip (takeUntilCh ',' (dropThroughCh ',' s))
      if (pySplitWs dp).length > 2 then joinSp ((pySplitWs dp).take 2) else dp
    else s
  match pyStrptimeBD date_part with
  | some (m, d) => strftimeBD m d
  | none => s

/-- The spec's starter-placeholder substitution (spec 4.3, Starters). -/
def starterSub (s : Str) : Str :=
  if s = str "TBD" ∨ s = str "N/A" ∨ s = [] then str "Starter TBD" else s

/-!  Concrete fixtures used by the end-to-end scenario, the witnesses and
the counterexamples. -/

/-- The starter cell of the end-to-end scenario: a player-profile link
whose slug is `jacob-degrom`, with a stats fragment. -/
def degromCell : Cell :=
  ⟨[some (str "/mlb/players/12345/jacob-degrom/")], [str "J. deGrom", str "(3-2, 2.45)"]⟩

/-- The first data row of the end-to-end scenario of claim C1. -/
def c1Row : Row :=
  ⟨[⟨[], [str "Wed, Jul 4"]⟩, ⟨[], [str "@ NYM"]⟩, ⟨[], [str "7:05 pm ET / ATV"]⟩,
    ⟨[], [str "Citi Field"]⟩, emptyCell, degromCell]⟩

/-- The second `TableBase-table` of the scenario page. -/
def c1Sched : HTable := ⟨[str "TableBase-table"], [⟨[c1Row]⟩]⟩

/-- The scenario page: a first (skipped) table with the schedule class,
then the schedule table. -/
def c1Page : Page := ⟨[⟨[str "TableBase-table"], []⟩, c1Sched]⟩

/-- The selected team's `(abbr, url_name, mascot)` triple used in the
scenario. -/
def phiInfo : Str × Str × Str := (str "PHI", str "philadelphia-phillies", str "Phillies")

/-- The full pipeline of claim C1: scrape the scenario page, then
normalize for the selected team. -/
def c1Result : Option Formatted :=
  (scrape_team_schedule (FetchResult.ok c1Page) (str "Philadelphia Phillies")).map
    (fun r => format_data_for_gemini_prompt r phiInfo)

/-- A raw game row whose only populated field is the raw time/TV string. -/
def rowTT (tt : Str) : RawGameRow := ⟨[], [], tt, [], [], [], []⟩

/-- A raw game row whose only populated field is the raw opponent string. -/
def rowOPP (o : Str) : RawGameRow := ⟨[], o, [], [], [], [], []⟩

/-- A raw game row whose only populated field is the raw date string. -/
def rowDate (d : Str) : RawGameRow := ⟨d, [], [], [], [], [], []⟩

/-- A first data row with only four cells, for the short-row claims. -/
def shortRow : Row :=
  ⟨[⟨[], [str "Wed, Jul 4"]⟩, ⟨[], [str "@ NYM"]⟩, ⟨[], [str "7:05 pm ET / ATV"]⟩, emptyCell]⟩

/-- A first data row with only three cells: the venue cell is absent. -/
def threeCellRow : Row :=
  ⟨[⟨[], [str "Wed, Jul 4"]⟩, ⟨[], [str "@ NYM"]⟩, ⟨[], [str "7:05 pm ET / ATV"]⟩]⟩

/-- A page whose schedule table's first row has only three cells. -/
def threeCellPage : Page :=
  ⟨[⟨[str "TableBase-table"], []⟩, ⟨[str "TableBase-table"], [⟨[threeCellRow]⟩]⟩]⟩

/-!  General lemmas about the helper functions. -/

/-- Splitting never yields an empty list of segments. -/
theorem pySplitOn_ne_nil (sep : Char) (s : Str) : pySplitOn sep s ≠ [] := by
  cases s with
  | nil => simp [pySplitOn]
  | cons c r =>
    simp only [pySplitOn]
    split
    · simp
    · split <;> simp

/-- The first segment of a split is the text before the first separator. -/
theorem pySplitOn_getD_zero (sep : Char) (s : Str) :
    (pySplitOn sep s).getD 0 [] = takeUntilCh sep s := by
  induction s with
  | nil => simp [pySplitOn, takeUntilCh]
  | cons c r ih =>
    by_cases hc : (c == sep) = true
    · simp [pySplitOn, takeUntilCh, hc]
    · simp only [pySplitOn, takeUntilCh, hc, Bool.false_eq_true, if_false]
      cases hps : pySplitOn sep r with
      | nil => exact absurd hps (pySplitOn_ne_nil sep r)
      | cons hh tt =>
        rw [hps] at ih
        simpa using ih

/-- The second segment of a split is the text between the first and second
separators, provided a separator occurs at all. -/
theorem pySplitOn_getD_one (sep : Char) (s : Str) (h : s.contains sep = true) :
    (pySplitOn sep s).getD 1 [] = takeUntilCh sep (dropThroughCh sep s) := by
  induction s with
  | nil => simp at h
  | cons c r ih =>
    by_cases hc : (c == sep) = true
    · have h0 := pySplitOn_getD_zero sep r
      simp only [pySplitOn, dropThroughCh, hc, if_true]
      simpa using h0
    · have hr : r.contains sep = true := by
        simp [List.contains_cons] at h ⊢
        rcases h with h' | h'
        · exact absurd h'.symm (by simpa using hc)
        · exact h'
      simp only [pySplitOn, dropThroughCh, hc, Bool.false_eq_true, if_false]
      cases hps : pySplitOn sep r with
      | nil => exact absurd hps (pySplitOn_ne_nil sep r)
      | cons hh tt =>
        rw [hps] at ih
        simpa using ih hr

/-- A position-wise description of the `re.search` driver: it misses
exactly when the anchored matcher misses at every suffix. -/
theorem searchAux_eq_none_iff {α : Type} (f : Str → Option α) (s : Str) :
    searchAux f s = none ↔ ∀ i, f (s.drop i) = none := by
  induction s with
  | nil =>
    constructor
    · intro h i
      simpa [searchAux] using h
    · intro h
      simpa [searchAux] using h 0
  | cons c r ih =>
    cases hf : f (c :: r) with
    | some x =>
      simp only [searchAux, hf]
      constructor
      · intro h
        exact absurd h (by simp)
      · intro h
        have := h 0
        simp [hf] at this
    | none =>
      simp only [searchAux, hf]
      rw [ih]
      constructor
      · intro h i
        cases i with
        | zero => simpa using hf
        | succ j => simpa using h j
      · intro h i
        simpa using h (i + 1)

/-- The date block of the source equals the amended claim C5 algorithm:
the only difference between the two texts is `split(',')[1]` against the
between-commas segment, and those agree by `pySplitOn_getD_one`. -/
theorem normDate_eq_amendedDateAlg (s : Str) : normDate s = amendedDateAlg s := by
  unfold normDate amendedDateAlg
  by_cases h : s.contains ',' = true
  · rw [pySplitOn_getD_one ',' s h]
  · have h' : ¬(',' ∈ s) := by simpa using h
    simp [h']

/-!  The claims. -/

/-- Claim C1, counterexample.  On the end-to-end scenario (second
`TableBase-table`, first body row with the six stated cells) the pipeline
produces the date `"July 04"` (the source renders with `strftime("%B %d")`,
which zero-pads the day, not `"July 4"`), the team starter
`"Jacob Degrom (3-2, 2.45)"` and the opponent starter `"Starter TBD"` —
the reverse of the claim's starter assignment: the source maps the away
starter cell to the selected team's starter for an away (`@`) game. -/
theorem C1_counterexample :
    (c1Result.map Formatted.date = some (str "July 04")
      ∧ str "July 04" ≠ str "July 4")
    ∧ (c1Result.map Formatted.scraped_team_starter
        = some (str "Jacob Degrom (3-2, 2.45)")
      ∧ str "Jacob Degrom (3-2, 2.45)" ≠ str "Starter TBD")
    ∧ (c1Result.map Formatted.opponent_starter = some (str "Starter TBD")
      ∧ str "Starter TBD" ≠ str "Jacob Degrom (3-2, 2.45)") := by
  decide

/-- Claim C1 as amended: the scenario pipeline yields exactly the date
`"July 04"`, matchup relation AWAY (conjunction `"at"`), opponent full
name `"New York Mets"`, time `"7:05 p.m. ET"`, TV `"Apple TV"`, venue
`"Citi Field"`, team starter `"Jacob Degrom (3-2, 2.45)"` (the away
starter cell, since the game is away) and opponent starter
`"Starter TBD"` (from the empty home starter cell). -/
theorem C1_amended :
    c1Result =
      some { date := str "July 04"
             scraped_team_mascot := str "Phillies"
             opponent_full_name := str "New York Mets"
             matchup_conjunction := str "at"
             time := str "7:05 p.m. ET"
             tv := str "Apple TV"
             venue := str "Citi Field"
             scraped_team_starter := str "Jacob Degrom (3-2, 2.45)"
             opponent_starter := str "Starter TBD" } := by
  decide

/-- Claim C3, counterexample.  Normalizing a row whose raw time/TV string
is exactly `"TBD"` yields the TV channel `"TBD"`, not `"Not specified"`:
the token scan of the source accepts the token `TBD` (it is not a time
pattern and not in the ignore set), so the candidate is non-empty. -/
theorem C3_counterexample :
    (format_data_for_gemini_prompt (rowTT (str "TBD")) phiInfo).tv = str "TBD"
    ∧ str "TBD" ≠ str "Not specified" := by
  decide

/-- Claim C3 as amended: for every raw row, a raw time/TV string of
`"7:05 pm ET / ATV"` normalizes to time `"7:05 p.m. ET"` and TV channel
`"Apple TV"`, and a raw time/TV string of exactly `"TBD"` normalizes to
time `"TBD"` and TV channel `"TBD"`. -/
theorem C3_amended (g : RawGameRow) (info : Str × Str × Str) :
    (g.Time_TV_raw = str "7:05 pm ET / ATV" →
      (format_data_for_gemini_prompt g info).time = str "7:05 p.m. ET"
      ∧ (format_data_for_gemini_prompt g info).tv = str "Apple TV")
    ∧ (g.Time_TV_raw = str "TBD" →
      (format_data_for_gemini_prompt g info).time = str "TBD"
      ∧ (format_data_for_gemini_prompt g info).tv = str "TBD") := by
  refine ⟨fun h => ?_, fun h => ?_⟩ <;>
    simp only [format_data_for_gemini_prompt, h] <;>
    exact ⟨by decide, by decide⟩

/-- Witness for C3_amended at the two concrete rows. -/
theorem C3_witness :
    (format_data_for_gemini_prompt (rowTT (str "7:05 pm ET / ATV")) phiInfo).time
      = str "7:05 p.m. ET"
    ∧ (format_data_for_gemini_prompt (rowTT (str "TBD")) phiInfo).tv = str "TBD" :=
  ⟨((C3_amended (rowTT (str "7:05 pm ET / ATV")) phiInfo).1 (by decide)).1,
   ((C3_amended (rowTT (str "TBD")) phiInfo).2 (by decide)).2⟩

/-- Claim C8, counterexample.  A first row with three cells (venue cell
absent) extracts a full record, but the venue field is the empty string,
not the sentinel `"N/A"`: the source pads absent cells with empty `<td>`
elements, and the first four fields read an empty cell's text as `""`.
Only the starter fields (which go through `get_starter_info`) fall back
to `"N/A"`. -/
theorem C8_counterexample :
    (scrape_team_schedule (FetchResult.ok threeCellPage) (str "Phillies")).map
        RawGameRow.Venue = some []
    ∧ some ([] : Str) ≠ some (str "N/A") := by
  decide

/-- Claim C8 as amended: for every located first row with fewer than six
cells, extraction still produces a full six-field record (the model is
total); an absent starter cell yields the sentinel `"N/A"`, while an
absent date/opponent/time/venue cell yields the empty string. -/
theorem C8_amended (row : Row) (nm : Str) (h : row.cells.length < 6) :
    (extractRow row nm).Away_starter = str "N/A"
    ∧ (row.cells.length ≤ 4 → (extractRow row nm).Home_starter = str "N/A")
    ∧ (row.cells.length ≤ 3 → (extractRow row nm).Venue = [])
    ∧ (row.cells.length ≤ 2 → (extractRow row nm).Time_TV_raw = [])
    ∧ (row.cells.length ≤ 1 → (extractRow row nm).OPP_raw = [])
    ∧ (row.cells.length = 0 → (extractRow row nm).Date = []) := by
  refine ⟨?_, fun h4 => ?_, fun h3 => ?_, fun h2 => ?_, fun h1 => ?_, fun h0 => ?_⟩ <;>
    simp only [extractRow] <;>
    rw [List.getD_eq_default _ _ (by omega)] <;>
    decide

/-- Witness for C8_amended at the concrete three-cell row. -/
theorem C8_witness :
    (extractRow threeCellRow (str "Phillies")).Away_starter = str "N/A"
    ∧ (threeCellRow.cells.length ≤ 4 →
        (extractRow threeCellRow (str "Phillies")).Home_starter = str "N/A")
    ∧ (threeCellRow.cells.length ≤ 3 →
        (extractRow threeCellRow (str "Phillies")).Venue = [])
    ∧ (threeCellRow.cells.length ≤ 2 →
        (extractRow threeCellRow (str "Phillies")).Time_TV_raw = [])
    ∧ (threeCellRow.cells.length ≤ 1 →
        (extractRow threeCellRow (str "Phillies")).OPP_raw = [])
    ∧ (threeCellRow.cells.length = 0 →
        (extractRow threeCellRow (str "Phillies")).Date = []) :=
  C8_amended threeCellRow (str "Phillies") (by decide)

/-- Claim C9: the scrape operation is a total function of the fetch
outcome (no uncaught fault in the model) and returns `none` exactly on a
fetch error, fewer than two `TableBase-table` tables, a second such table
without a body, or a body without a row; otherwise it returns the record
extracted from the first row of the second matching table. -/
theorem C9_error_propagation :
    (∀ nm, scrape_team_schedule FetchResult.err nm = none)
    ∧ (∀ p nm, (findTables p).length < 2 →
        scrape_team_schedule (FetchResult.ok p) nm = none)
    ∧ (∀ p nm t1, (findTables p)[1]? = some t1 →
        ((t1.tbodies.head? = none →
            scrape_team_schedule (FetchResult.ok p) nm = none)
         ∧ (∀ tb, t1.tbodies.head? = some tb → tb.rows.head? = none →
            scrape_team_schedule (FetchResult.ok p) nm = none)
         ∧ (∀ tb r, t1.tbodies.head? = some tb → tb.rows.head? = some r →
            scrape_team_schedule (FetchResult.ok p) nm
              = some (extractRow r nm)))) := by
  refine ⟨fun nm => rfl, ?_, ?_⟩
  · intro p nm h
    rcases hft : findTables p with _ | ⟨a, _ | ⟨b, rest⟩⟩
    · simp [scrape_team_schedule, hft]
    · simp [scrape_team_schedule, hft]
    · rw [hft] at h
      simp at h
      omega
  · intro p nm t1 h1
    rcases hft : findTables p with _ | ⟨a, _ | ⟨b, rest⟩⟩ <;> rw [hft] at h1
    · simp at h1
    · simp at h1
    · simp only [List.getElem?_cons_succ, List.getElem?_cons_zero] at h1
      cases h1
      refine ⟨fun htb => ?_, fun tb htb hrow => ?_, fun tb r htb hrow => ?_⟩ <;>
        simp [scrape_team_schedule, hft, htb]
      · simp [hrow]
      · simp [hrow]

/-- Witness for C9_error_propagation: the success clause at the scenario
page and the error clause at a fetch failure. -/
theorem C9_witness :
    scrape_team_schedule (FetchResult.ok c1Page) (str "Philadelphia Phillies")
      = some (extractRow c1Row (str "Philadelphia Phillies"))
    ∧ scrape_team_schedule FetchResult.err (str "Philadelphia Phillies") = none :=
  ⟨((C9_error_propagation.2.2 c1Page (str "Philadelphia Phillies") c1Sched
      (by decide)).2.2 ⟨[c1Row]⟩ c1Row (by decide) (by decide)),
   C9_error_propagation.1 (str "Philadelphia Phillies")⟩

/-- Claim C10: when the opponent regex matches but the captured token is
not a known team abbreviation, the normalized opponent is the raw string
unchanged — the prefix-stripping fallback branch is not applied. -/
theorem C10_unknown_abbr (g : RawGameRow) (info : Str × Str × Str) (abbr : Str)
    (h1 : oppSearch g.OPP_raw = some abbr)
    (h2 : MLB_TEAMS_BY_ABBR abbr = none) :
    (format_data_for_gemini_prompt g info).opponent_full_name = g.OPP_raw := by
  simp only [format_data_for_gemini_prompt, normOpp, h1, h2]

/-- Witness for C10_unknown_abbr at the raw opponent string `"vs. XYZ"`. -/
theorem C10_witness :
    (format_data_for_gemini_prompt (rowOPP (str "vs. XYZ")) phiInfo).opponent_full_name
      = str "vs. XYZ" :=
  (C10_unknown_abbr (rowOPP (str "vs. XYZ")) phiInfo (str "XYZ")
    (by decide) (by decide)).trans (by decide)

/-- A starter cell whose link path is the slug `-a`: hyphen-joined and
alphanumeric-and-hyphen-only, but starting with a hyphen, so the rebuilt
name starts with a space. -/
def hyphenCell : Cell := ⟨[some (str "-a")], []⟩

/-- Claim C2, counterexample.  For the cell whose link slug is `-a`, the
claim's value — the capitalized hyphen-split join followed by the (empty)
stats fragment, trimmed of TRAILING whitespace only — is `" A"`, but the
source applies Python `strip()` and returns `"A"`: leading whitespace is
removed as well. -/
theorem C2_counterexample :
    hyphenCell.anchors.head? = some (some (str "-a"))
    ∧ slugIsName (lastSlugSegment (str "-a")) = true
    ∧ pyTrimRight (slugToName (lastSlugSegment (str "-a")) ++ str " "
        ++ firstParen hyphenCell) = str " A"
    ∧ get_starter_info hyphenCell = str "A"
    ∧ str "A" ≠ str " A" := by
  decide

/-- Claim C2 as amended: when the first link's path has a hyphen-joined
alphanumeric-and-hyphen last segment, the result is the capitalized
hyphen-split join, followed by the first parenthesized fragment, trimmed
of LEADING AND TRAILING whitespace (Python `strip()`); a cell with no such
link and visible text `TBD` yields `TBD`; a fully empty cell yields
`N/A`; the `jacob-degrom` cell yields `Jacob Degrom (3-2, 2.45)`. -/
theorem C2_amended (cell : Cell) (href : Str)
    (h1 : cell.anchors.head? = some (some href))
    (h2 : slugIsName (lastSlugSegment href) = true) :
    get_starter_info cell
      = pyStrip (slugToName (lastSlugSegment href) ++ str " " ++ firstParen cell)
    ∧ get_starter_info ⟨[], [str "TBD"]⟩ = str "TBD"
    ∧ get_starter_info emptyCell = str "N/A"
    ∧ get_starter_info degromCell = str "Jacob Degrom (3-2, 2.45)" := by
  refine ⟨?_, by decide, by decide, by decide⟩
  have hne := pySplitOn_ne_nil '/' (stripChar '/' href)
  have hlen : 0 < (pySplitOn '/' (stripChar '/' href)).length := List.length_pos.mpr hne
  have h2' : (((pySplitOn '/' (stripChar '/' href)).getLastD []).contains '-'
      && ((pySplitOn '/' (stripChar '/' href)).getLastD []).all
          (fun c => c.isAlphanum || c == '-')) = true := h2
  simp only [get_starter_info, h1, slugToName, lastSlugSegment, firstParen]
  rw [if_pos hlen, if_pos h2']

/-- Witness for C2_amended at the `jacob-degrom` cell of the scenario. -/
theorem C2_witness :
    get_starter_info degromCell
      = pyStrip (slugToName (lastSlugSegment (str "/mlb/players/12345/jacob-degrom/"))
          ++ str " " ++ firstParen degromCell)
    ∧ get_starter_info degromCell = str "Jacob Degrom (3-2, 2.45)" :=
  ⟨(C2_amended degromCell (str "/mlb/players/12345/jacob-degrom/")
      (by decide) (by decide)).1,
   by decide⟩

/-- Claim C4, counterexample.  `"7:05 p ET"` contains an `H:MM` token
followed by a `p` marker with no `m` tail (the tail is optional in the
claim's pattern), yet the source normalizes its time to `"TBD"`: the first
source regex demands `m`/`M` after the marker, and the fallback regex
demands the marker be adjacent to the time. -/
theorem C4_counterexample :
    claimTimeSearch (str "7:05 p ET") = some (str "7:05", 'p')
    ∧ (format_data_for_gemini_prompt (rowTT (str "7:05 p ET")) phiInfo).time
      = str "TBD"
    ∧ str "TBD" ≠ str "7:05 p.m. ET" := by
  decide

/-- Claim C4 as amended: the normalized time renders the leftmost match of
the first regex (time, optional whitespace, a/p marker, optional dot,
mandatory m/M, optional dot) as `"H:MM a.m. ET"`/`"H:MM p.m. ET"` with the
marker lowercased; failing that, the leftmost match of the
adjacent-bare-marker regex; with no match at any position of either
pattern (the two iff conjuncts make "no match" positional), the time is
`"TBD"`. -/
theorem C4_amended (g : RawGameRow) (info : Str × Str × Str) :
    (∀ t ap, searchR1 g.Time_TV_raw = some (t, ap) →
        (format_data_for_gemini_prompt g info).time
          = t ++ str " " ++ [ap.toLower] ++ str ".m. ET")
    ∧ (∀ t ap, searchR1 g.Time_TV_raw = none →
        searchR2 g.Time_TV_raw = some (t, ap) →
        (format_data_for_gemini_prompt g info).time
          = t ++ str " " ++ [ap.toLower] ++ str ".m. ET")
    ∧ (searchR1 g.Time_TV_raw = none → searchR2 g.Time_TV_raw = none →
        (format_data_for_gemini_prompt g info).time = str "TBD")
    ∧ (searchR1 g.Time_TV_raw = none
        ↔ ∀ i, r1MatchAt (g.Time_TV_raw.drop i) = none)
    ∧ (searchR2 g.Time_TV_raw = none
        ↔ ∀ i, r2MatchAt (g.Time_TV_raw.drop i) = none) := by
  refine ⟨?_, ?_, ?_, searchAux_eq_none_iff r1MatchAt g.Time_TV_raw,
    searchAux_eq_none_iff r2MatchAt g.Time_TV_raw⟩
  · intro t ap h
    simp only [format_data_for_gemini_prompt, normTime, h]
  · intro t ap h1 h2
    simp only [format_data_for_gemini_prompt, normTime, h1, h2]
  · intro h1 h2
    simp only [format_data_for_gemini_prompt, normTime, h1, h2]

/-- Witness for C4_amended at the scenario's raw time/TV string. -/
theorem C4_witness :
    (format_data_for_gemini_prompt (rowTT (str "7:05 pm ET / ATV")) phiInfo).time
      = str "7:05 p.m. ET" :=
  ((C4_amended (rowTT (str "7:05 pm ET / ATV")) phiInfo).1 (str "7:05") 'p'
    (by decide)).trans (by decide)

/-- Claim C5, counterexample.  On `"Tue, Jul 4, 2024"` the claim's stated
algorithm (substring after the FIRST comma, i.e. `" Jul 4, 2024"`, limited
to two tokens `"Jul 4,"`, which fails to parse) passes the raw string
through, but the source takes `split(',')[1]` — the segment between the
first and second commas, `" Jul 4"` — which parses, and outputs
`"July 04"`. -/
theorem C5_counterexample :
    claimDateAlg (str "Tue, Jul 4, 2024") = str "Tue, Jul 4, 2024"
    ∧ (format_data_for_gemini_prompt (rowDate (str "Tue, Jul 4, 2024")) phiInfo).date
      = str "July 04"
    ∧ str "July 04" ≠ str "Tue, Jul 4, 2024" := by
  decide

/-- Claim C5 as amended: for every raw date string, the normalized date is
produced by taking (when a comma is present) the segment between the first
and second commas, stripped and limited to its first two whitespace
tokens, parsing it as abbreviated-month day with no year, and rendering
full-month-name zero-padded day; any parse failure passes the raw string
through unchanged (the operation never fails).  The concrete conjuncts
check the claim's examples. -/
theorem C5_amended (g : RawGameRow) (info : Str × Str × Str) :
    (format_data_for_gemini_prompt g info).date = amendedDateAlg g.Date
    ∧ (format_data_for_gemini_prompt (rowDate (str "Tue, Jul 4")) phiInfo).date
      = str "July 04"
    ∧ (format_data_for_gemini_prompt (rowDate (str "Jul 4")) phiInfo).date
      = str "July 04"
    ∧ (format_data_for_gemini_prompt (rowDate (str "Wednesday"))
        phiInfo).date = str "Wednesday" := by
  refine ⟨?_, by decide, by decide, by decide⟩
  simp only [format_data_for_gemini_prompt]
  exact normDate_eq_amendedDateAlg g.Date

/-- Claim C6, counterexample.  Two branches of the claim fail on the
source.  First, `" NYM "`: its trimmed form is the known abbreviation
`NYM` (and with an optional prefix a bare abbreviation would also satisfy
the claim's search clause), yet the source — whose regex REQUIRES a
`vs`/`vs.`/`@` sign and whose direct-substitution branch tests the
untrimmed string's length — resolves it to `"NYM"`, not the full name.
Second, `"a vs. bc"`: the claim strips prefixes, leaving the string
unchanged (no prefix), but the source removes the interior `"vs. "`
occurrence, yielding `"a bc"`. -/
theorem C6_counterexample :
    (MLB_TEAMS_BY_ABBR (pyStrip (str " NYM "))
        = some (str "New York Mets", str "Mets")
      ∧ (format_data_for_gemini_prompt (rowOPP (str " NYM ")) phiInfo).opponent_full_name
        = str "NYM"
      ∧ str "NYM" ≠ str "New York Mets")
    ∧ (oppSearch (str "a vs. bc") = none
      ∧ (format_data_for_gemini_prompt (rowOPP (str "a vs. bc")) phiInfo).opponent_full_name
        = str "a bc"
      ∧ str "a bc" ≠ str "a vs. bc") := by
  decide

/-- Claim C6 as amended: a regex hit (`vs`/`vs.`/`@` sign REQUIRED,
optional whitespace, 2-3 uppercase letters) whose token is a known
abbreviation resolves to the franchise's full name; with no regex hit, the
raw string resolves directly only when it is itself — untrimmed — an
uppercase string of length 2 or 3 that is a known abbreviation; with no
regex hit and otherwise, every occurrence of `"vs. "` and `"@ "` is
removed and the result stripped.  The concrete conjuncts check the
claim's examples. -/
theorem C6_amended (g : RawGameRow) (info : Str × Str × Str) :
    (∀ abbr full m, oppSearch g.OPP_raw = some abbr →
        MLB_TEAMS_BY_ABBR abbr = some (full, m) →
        (format_data_for_gemini_prompt g info).opponent_full_name = full)
    ∧ (∀ full m, oppSearch g.OPP_raw = none →
        pyIsUpper g.OPP_raw = true →
        (g.OPP_raw.length = 2 ∨ g.OPP_raw.length = 3) →
        MLB_TEAMS_BY_ABBR g.OPP_raw = some (full, m) →
        (format_data_for_gemini_prompt g info).opponent_full_name = full)
    ∧ (oppSearch g.OPP_raw = none →
        (pyIsUpper g.OPP_raw = false
          ∨ (g.OPP_raw.length ≠ 2 ∧ g.OPP_raw.length ≠ 3)
          ∨ MLB_TEAMS_BY_ABBR g.OPP_raw = none) →
        (format_data_for_gemini_prompt g info).opponent_full_name
          = pyStrip (replaceAll (str "@ ") [] (replaceAll (str "vs. ") [] g.OPP_raw)))
    ∧ (format_data_for_gemini_prompt (rowOPP (str "@ NYM")) phiInfo).opponent_full_name
        = str "New York Mets"
    ∧ (format_data_for_gemini_prompt (rowOPP (str "vs BOS")) phiInfo).opponent_full_name
        = str "Boston Red Sox" := by
  refine ⟨?_, ?_, ?_, by decide, by decide⟩
  · intro abbr full m h1 h2
    simp only [format_data_for_gemini_prompt, normOpp, h1, h2]
  · intro full m h1 hu hlen h2
    have hb : (g.OPP_raw.length == 2 || g.OPP_raw.length == 3) = true := by
      rcases hlen with h | h <;> simp [h]
    simp only [format_data_for_gemini_prompt, normOpp, h1, h2, hu, hb,
      Bool.true_and, if_true]
  · intro h1 hdis
    simp only [format_data_for_gemini_prompt, normOpp, h1]
    rcases hdis with hu | ⟨hl2, hl3⟩ | hnone
    · simp [hu]
    · have hb : (g.OPP_raw.length == 2 || g.OPP_raw.length == 3) = false := by
        simp [hl2, hl3]
      simp [hb]
    · by_cases hcond :
        (pyIsUpper g.OPP_raw && (g.OPP_raw.length == 2 || g.OPP_raw.length == 3)) = true
      · simp [hcond, hnone]
      · simp [hcond]

/-- Witness for C6_amended at the raw opponent string of the scenario. -/
theorem C6_witness :
    (format_data_for_gemini_prompt (rowOPP (str "@ NYM")) phiInfo).opponent_full_name
      = str "New York Mets" :=
  (C6_amended (rowOPP (str "@ NYM")) phiInfo).1 (str "NYM") (str "New York Mets")
    (str "Mets") (by decide) (by decide)

/-- The inline placeholder conditional of the starter block (in the
propositional normal form `simp` gives it) equals the spec's substitution
function. -/
theorem starter_if_eq (X : Str) :
    (if (¬X = str "TBD" ∧ ¬X = str "N/A") ∧ ¬X = ([] : Str) then X
     else str "Starter TBD") = starterSub X := by
  unfold starterSub
  by_cases h : X = str "TBD" ∨ X = str "N/A" ∨ X = []
  · rw [if_neg (by tauto), if_pos h]
  · rw [if_pos (by tauto), if_neg h]

/-- Claim C7: the matchup relation is AWAY (conjunction `"at"`) exactly
when the raw opponent string contains `@`, and HOME (conjunction `"vs."`)
exactly when it does not; for HOME the home starter (after placeholder
substitution) becomes the team's starter and the away starter the
opponent's, and for AWAY the assignment is exactly swapped. -/
theorem C7_starter_invariant (g : RawGameRow) (info : Str × Str × Str) :
    ((format_data_for_gemini_prompt g info).matchup_conjunction = str "vs."
      ↔ ¬('@' ∈ g.OPP_raw))
    ∧ ((format_data_for_gemini_prompt g info).matchup_conjunction = str "at"
      ↔ '@' ∈ g.OPP_raw)
    ∧ (¬('@' ∈ g.OPP_raw) →
        (format_data_for_gemini_prompt g info).scraped_team_starter
          = starterSub g.Home_starter
        ∧ (format_data_for_gemini_prompt g info).opponent_starter
          = starterSub g.Away_starter)
    ∧ ('@' ∈ g.OPP_raw →
        (format_data_for_gemini_prompt g info).scraped_team_starter
          = starterSub g.Away_starter
        ∧ (format_data_for_gemini_prompt g info).opponent_starter
          = starterSub g.Home_starter) := by
  by_cases hc : '@' ∈ g.OPP_raw
  · have hb : g.OPP_raw.contains '@' = true := by simpa using hc
    refine ⟨?_, ?_, fun hn => absurd hc hn, fun _ => ⟨?_, ?_⟩⟩ <;>
      simp only [format_data_for_gemini_prompt, hb, if_true] <;>
      simp [hc, starter_if_eq, show (str "at" == str "vs.") = false by decide,
        show ¬(str "at" = str "vs.") by decide]
  · have hb : g.OPP_raw.contains '@' = false := by simpa using hc
    refine ⟨?_, ?_, fun _ => ⟨?_, ?_⟩, fun ha => absurd ha hc⟩ <;>
      simp only [format_data_for_gemini_prompt, hb, Bool.false_eq_true, if_false] <;>
      simp [hc, starter_if_eq, show (str "vs." == str "vs.") = true by decide,
        show ¬(str "vs." = str "at") by decide]

/-- Witness for C7_starter_invariant at the scenario's away game row and a
home-game variant of it. -/
theorem C7_witness :
    (format_data_for_gemini_prompt (rowOPP (str "@ NYM")) phiInfo).scraped_team_starter
      = starterSub (rowOPP (str "@ NYM")).Away_starter
    ∧ (format_data_for_gemini_prompt (rowOPP (str "vs BOS")) phiInfo).opponent_starter
      = starterSub (rowOPP (str "vs BOS")).Away_starter :=
  ⟨((C7_starter_invariant (rowOPP (str "@ NYM")) phiInfo).2.2.2 (by decide)).1,
   ((C7_starter_invariant (rowOPP (str "vs BOS")) phiInfo).2.2.1 (by decide)).2⟩

end NGS
